import Mathlib

/-!
Shallow embedding of the invensys-backend allocation subsystem
(`backend/db/repository/laptop_allocation.py`, `laptop_detail.py`, the ORM
models in `backend/db/models/` and the seed data in `backend/db/seed.py`).

Conventions of the embedding:
* UUIDs and integer primary keys are both modelled as `Nat`; datetimes as `Nat`.
* Nullable ORM columns are `Option` fields.
* The relational store is a `Store` of plain lists; SQLAlchemy
  `scalar_one_or_none` over a `where col == v` filter is `List.find?`.
* Each repository coroutine becomes a function `... → Store × Except Err α`.
  An `HTTPException` raised before `db.commit()` leaves the store unchanged
  (the transaction is never committed); an uncaught Python exception
  (`AttributeError` from dereferencing a `None` lookup result) is modelled by
  `Err.internal`, again with the store unchanged when it fires before the
  commit and with the committed store when it fires after (the only such spot
  is the post-commit logging in `repo_create_allocation`).
-/

namespace Invensys

/-- Client-visible error channel of the repository layer: `notFound` and
`forbidden` mirror `HTTPException(404, detail)` / `HTTPException(403, detail)`;
`internal` models an uncaught Python exception (an `AttributeError` raised by
dereferencing the `None` returned by a failed lookup), which surfaces as an
uncategorized 500, not as a client-visible category. -/
inductive Err where
  | notFound (detail : String)
  | forbidden (detail : String)
  | internal
  deriving DecidableEq, Repr

instance {ε α : Type} [DecidableEq ε] [DecidableEq α] : DecidableEq (Except ε α) :=
  fun x y =>
    match x, y with
    | Except.ok a, Except.ok b =>
        if h : a = b then isTrue (by rw [h])
        else isFalse (by intro hc; cases hc; exact h rfl)
    | Except.error e, Except.error f =>
        if h : e = f then isTrue (by rw [h])
        else isFalse (by intro hc; cases hc; exact h rfl)
    | Except.ok _, Except.error _ => isFalse (by intro hc; cases hc)
    | Except.error _, Except.ok _ => isFalse (by intro hc; cases hc)

/-- Predicate `Err.isNotFound e` holds exactly for the client-visible 404 category. -/
def Err.isNotFound : Err → Bool
  | Err.notFound _ => true
  | _ => false

/-- The spec's `PrecedenceViolation` category: the source encodes it as a 403
whose detail is the fixed generation-ordering message of
`repo_create_return_form`. -/
def isPrecedenceViolation : Err → Bool
  | Err.forbidden d => d == "Cannot generate return form before allocation Form"
  | _ => false

/-- Row of `db/models/is_laptop_status.py` (`LaptopStatus`). -/
structure LaptopStatus where
  id : Nat
  status_name : String
  deriving DecidableEq, Repr

/-- Row of `db/models/is_laptop_details.py` (`LaptopDetail`). -/
structure LaptopDetail where
  id : Nat
  laptop_brand : String
  laptop_model : String
  serial_number : String
  laptop_name : String
  asset_tag : String
  status_id : Nat
  business_unit_id : Option Nat
  deriving DecidableEq, Repr

/-- Row of `db/models/is_users.py` (`User`), restricted to the columns the
allocation subsystem reads. -/
structure User where
  id : Nat
  username : String
  deriving DecidableEq, Repr

/-- Row of `db/models/is_laptop_allocation.py` (`LaptopAllocation`). -/
structure LaptopAllocation where
  id : Nat
  user_id : Nat
  laptop_id : Nat
  allocation_date : Nat
  return_date : Option Nat
  allocation_form : Option String
  return_form : Option String
  return_comment : Option String
  is_active : Bool
  allocated_by : Nat
  allocation_condition : String
  returned_by : Option Nat
  reason_for_allocation : String
  condition_on_return : Option String
  deriving DecidableEq, Repr

/-- The relational store. `nextLaptopId` / `nextAllocId` model the freshness
of `uuid.uuid4()` primary-key defaults: a newly inserted row gets the next
counter value. -/
structure Store where
  statuses : List LaptopStatus
  laptops : List LaptopDetail
  users : List User
  allocations : List LaptopAllocation
  nextLaptopId : Nat
  nextAllocId : Nat
  deriving DecidableEq, Repr

/-- Query `select(LaptopDetail).where(LaptopDetail.id == i)` + `scalar_one_or_none()`. -/
def findLaptop (s : Store) (i : Nat) : Option LaptopDetail :=
  s.laptops.find? (fun l => l.id == i)

/-- Query `select(LaptopStatus).where(LaptopStatus.status_name == n)` + `scalar_one_or_none()`. -/
def findStatusByName (s : Store) (n : String) : Option LaptopStatus :=
  s.statuses.find? (fun st => st.status_name == n)

/-- Query `select(LaptopAllocation).where(LaptopAllocation.id == i)` + `scalar_one_or_none()`. -/
def findAllocationRec (s : Store) (i : Nat) : Option LaptopAllocation :=
  s.allocations.find? (fun a => a.id == i)

/-- Query `select(User).where(User.id == i)` + `scalar_one_or_none()`. -/
def findUser (s : Store) (i : Nat) : Option User :=
  s.users.find? (fun u => u.id == i)

/-- Committing `laptop.status_id = v` for the laptop row(s) with primary key
`laptopId`. -/
def setLaptopStatus (s : Store) (laptopId statusId : Nat) : Store :=
  { s with
    laptops := s.laptops.map
      (fun l => if l.id == laptopId then { l with status_id := statusId } else l) }

/-- Committing an in-session mutation of the allocation row with primary key
`i` to the new row value `a`. -/
def putAllocationRec (s : Store) (i : Nat) (a : LaptopAllocation) : Store :=
  { s with
    allocations := s.allocations.map (fun b => if b.id == i then a else b) }

/-- Request schema `CreateAllocation` (`schemas/laptop_allocation.py`). -/
structure CreateAllocation where
  user_id : Nat
  laptop_id : Nat
  allocation_date : Nat
  allocation_condition : String
  reason_for_allocation : String
  deriving DecidableEq, Repr

/-- Request schema `CreateReturn` (`schemas/laptop_allocation.py`). -/
structure CreateReturn where
  return_date : Nat
  return_comment : String
  condition_on_return : String
  deriving DecidableEq, Repr

/-- Request schema `CreateLaptop` (`schemas/laptop_detail.py`). -/
structure CreateLaptop where
  laptop_brand : String
  laptop_model : String
  serial_number : String
  laptop_name : String
  asset_tag : String
  status_id : Nat
  business_unit_id : Option Nat
  deriving DecidableEq, Repr

/-- Request schema `ChangeLaptopStatus` (`schemas/laptop_detail.py`). -/
structure ChangeLaptopStatus where
  status_id : Nat
  deriving DecidableEq, Repr

/-- The `LaptopAllocation(...)` constructor call at the top of
`repo_create_allocation`: return/document columns take their column defaults
(`NULL`), `is_active` takes its column default `True`. -/
def newAllocationRow (alloc : CreateAllocation) (allocId allocator_id : Nat) :
    LaptopAllocation :=
  { id := allocId
    user_id := alloc.user_id
    laptop_id := alloc.laptop_id
    allocation_date := alloc.allocation_date
    return_date := none
    allocation_form := none
    return_form := none
    return_comment := none
    is_active := true
    allocated_by := allocator_id
    allocation_condition := alloc.allocation_condition
    returned_by := none
    reason_for_allocation := alloc.reason_for_allocation
    condition_on_return := none }

/-- The store as committed by a successful `repo_create_allocation`: the new
ledger row is inserted and the laptop row flips to the `"Allocated"` status,
in one transaction. -/
def createCommitted (alloc : CreateAllocation) (s : Store) (allocator_id : Nat)
    (laptopId statusId : Nat) : Store :=
  { setLaptopStatus s laptopId statusId with
    allocations := s.allocations ++ [newAllocationRow alloc s.nextAllocId allocator_id]
    nextAllocId := s.nextAllocId + 1 }

/-- Source `repo_create_allocation` (laptop_allocation.py, lines 20-61). The source
performs no existence checks at all: if the laptop row or the `"Allocated"`
status row is missing, the line `laptop.status_id = status_we_want.id`
dereferences `None` and the request dies with an uncaught `AttributeError`
before the commit. The allocator/user rows are only dereferenced by the
logging statement, which runs after `db.commit()`, so a missing allocator or
user crashes the request but leaves the transaction committed. -/
def repo_create_allocation (alloc : CreateAllocation) (s : Store)
    (allocator_id : Nat) : Store × Except Err LaptopAllocation :=
  match findLaptop s alloc.laptop_id, findStatusByName s "Allocated" with
  | some laptop, some status_we_want =>
      let committed := createCommitted alloc s allocator_id laptop.id status_we_want.id
      match findUser s allocator_id, findUser s alloc.user_id with
      | some _, some _ =>
          (committed, Except.ok (newAllocationRow alloc s.nextAllocId allocator_id))
      | _, _ => (committed, Except.error Err.internal)
  | _, _ => (s, Except.error Err.internal)

/-- The field updates applied to the fetched allocation row by
`repo_return_laptop` before its commit. -/
def returnedRow (alloc : LaptopAllocation) (returned_laptop : CreateReturn)
    (allocator_id : Nat) : LaptopAllocation :=
  { alloc with
    return_date := some returned_laptop.return_date
    return_comment := some returned_laptop.return_comment
    returned_by := some allocator_id
    condition_on_return := some returned_laptop.condition_on_return
    is_active := false }

/-- Source `repo_return_laptop` (laptop_allocation.py, lines 117-157). A missing
allocation raises a 404 before any mutation. A missing laptop row or missing
`"Available"` status row crashes on a `None` dereference
(`laptop.status_id = status_we_want.id`) before the commit, as does a missing
allocator/user row (the logging statement runs before `db.commit()` here), so
in every failure case the transaction rolls back and the store is unchanged. -/
def repo_return_laptop (i : Nat) (returned_laptop : CreateReturn) (s : Store)
    (allocator_id : Nat) : Store × Except Err LaptopAllocation :=
  match findAllocationRec s i with
  | none => (s, Except.error (Err.notFound "!!!Allocation not found!!!"))
  | some alloc =>
      let updated := returnedRow alloc returned_laptop allocator_id
      match findLaptop s alloc.laptop_id, findStatusByName s "Available" with
      | some laptop, some status_we_want =>
          match findUser s allocator_id, findUser s alloc.user_id with
          | some _, some _ =>
              (setLaptopStatus (putAllocationRec s i updated) laptop.id status_we_want.id,
               Except.ok updated)
          | _, _ => (s, Except.error Err.internal)
      | _, _ => (s, Except.error Err.internal)

/-- Source `repo_upload_form` (laptop_allocation.py, lines 160-180): attach an
allocation-form storage key. The only check is existence of the allocation;
any previous key is overwritten and no other column is touched. -/
def repo_upload_form (i : Nat) (s : Store) (object_name : String)
    (admin : User) : Store × Except Err LaptopAllocation :=
  match findAllocationRec s i with
  | none => (s, Except.error (Err.notFound "!!!Allocation not found!!!"))
  | some allocation =>
      let updated := { allocation with allocation_form := some object_name }
      (putAllocationRec s i updated, Except.ok updated)

/-- Source `repo_upload_return_form` (laptop_allocation.py, lines 214-240): attach a
return-form storage key. Checks existence, then rejects with a 403 while the
allocation is still active; it does not look at `allocation_form`. -/
def repo_upload_return_form (i : Nat) (s : Store) (object_name : String)
    (admin : User) : Store × Except Err LaptopAllocation :=
  match findAllocationRec s i with
  | none => (s, Except.error (Err.notFound "!!! Allocation Not Found !!!"))
  | some allocation =>
      if allocation.is_active then
        (s, Except.error (Err.forbidden
          "This laptop is still in use. Return it in the system before uploading a return form"))
      else
        let updated := { allocation with return_form := some object_name }
        (putAllocationRec s i updated, Except.ok updated)

/-- Source `repo_modify_laptop_status` (laptop_detail.py, lines 78-97): direct
operator-driven status change. The only check is that the laptop row exists. -/
def repo_modify_laptop_status (i : Nat) (laptop_status : ChangeLaptopStatus)
    (s : Store) (admin : User) : Store × Except Err LaptopDetail :=
  match findLaptop s i with
  | none => (s, Except.error (Err.notFound "⚠️!!!LAPTOP NOT FOUND!!!⚠️"))
  | some laptop =>
      (setLaptopStatus s i laptop_status.status_id,
       Except.ok { laptop with status_id := laptop_status.status_id })

/-- Python `str.lower()` on the ASCII names this system uses, written as a
structural recursion so that concrete stores evaluate inside proofs. -/
def pyLower (s : String) : String :=
  String.mk (s.data.map Char.toLower)

/-- Source `repo_new_laptop` (laptop_detail.py, lines 16-36): plain insert with the
laptop name lowercased; no checks. -/
def repo_new_laptop (laptop : CreateLaptop) (s : Store) (admin : User) :
    Store × Except Err LaptopDetail :=
  let new_laptop : LaptopDetail :=
    { id := s.nextLaptopId
      laptop_brand := laptop.laptop_brand
      laptop_model := laptop.laptop_model
      serial_number := laptop.serial_number
      laptop_name := pyLower laptop.laptop_name
      asset_tag := laptop.asset_tag
      status_id := laptop.status_id
      business_unit_id := laptop.business_unit_id }
  ({ s with laptops := s.laptops ++ [new_laptop], nextLaptopId := s.nextLaptopId + 1 },
   Except.ok new_laptop)

/-- Python truthiness of an `Optional[str]` column: `not x` holds for `None`
and for the empty string. -/
def pyFalsyStr : Option String → Bool
  | none => true
  | some s => s == ""

/-- The structured payload `repo_create_return_form` hands to the external
PDF renderer (the renderer itself is the out-of-scope capability
`renderForm`); producing this value stands for producing the PDF bytes. -/
structure FormPdf where
  return_date : Option Nat
  return_comment : Option String
  condition_on_return : Option String
  deriving DecidableEq, Repr

/-- Source `repo_create_return_form` (laptop_allocation.py, lines 314-347), the
`kind=Return` branch of form generation. The allocation row has already been
fetched by the route (`repo_show_an_allocation`, which 404s when it is
missing). The guard `if not allocation.allocation_form` fires before
`generate_allocation_form` is called, so no PDF is rendered on that path; no
other property of the allocation is consulted. After rendering, the
`returned_by` user is looked up for logging and dereferenced, so a missing or
null returner crashes the request (`Err.internal`) and the rendered bytes are
never returned. -/
def repo_create_return_form (allocation : LaptopAllocation) (s : Store) :
    Except Err FormPdf :=
  let allocation_data : FormPdf :=
    { return_date := allocation.return_date
      return_comment := allocation.return_comment
      condition_on_return := allocation.condition_on_return }
  if pyFalsyStr allocation.allocation_form then
    Except.error (Err.forbidden "Cannot generate return form before allocation Form")
  else
    match allocation.returned_by with
    | none => Except.error Err.internal
    | some rid =>
        match findUser s rid with
        | none => Except.error Err.internal
        | some _ => Except.ok allocation_data

/-- The admin actor injected by `get_current_user`; it matches the seeded
`admin` user and is only ever read by logging statements. -/
def adminUser : User := { id := 1, username := "admin" }

/-- One lifecycle event against the store, covering every state-mutating
operation of the allocation subsystem. -/
inductive Op where
  | newLaptop (laptop : CreateLaptop)
  | createAllocation (alloc : CreateAllocation) (allocator_id : Nat)
  | returnLaptop (i : Nat) (returned_laptop : CreateReturn) (allocator_id : Nat)
  | uploadAllocationForm (i : Nat) (object_name : String)
  | uploadReturnForm (i : Nat) (object_name : String)
  | modifyLaptopStatus (i : Nat) (laptop_status : ChangeLaptopStatus)
  deriving DecidableEq, Repr

/-- The store left behind by one operation (whether it succeeded or raised). -/
def applyOp (s : Store) : Op → Store
  | Op.newLaptop l => (repo_new_laptop l s adminUser).1
  | Op.createAllocation a aid => (repo_create_allocation a s aid).1
  | Op.returnLaptop i r aid => (repo_return_laptop i r s aid).1
  | Op.uploadAllocationForm i o => (repo_upload_form i s o adminUser).1
  | Op.uploadReturnForm i o => (repo_upload_return_form i s o adminUser).1
  | Op.modifyLaptopStatus i c => (repo_modify_laptop_status i c s adminUser).1

/-- Running a sequence of lifecycle events from a starting store. -/
def runOps (s : Store) (ops : List Op) : Store :=
  ops.foldl applyOp s

/-- Condition `L.status == Allocated` in store `s`: the laptop's `status_id` equals the
id of the status row named `"Allocated"`. -/
def laptopStatusAllocated (s : Store) (l : LaptopDetail) : Bool :=
  match findStatusByName s "Allocated" with
  | some st => l.status_id == st.id
  | none => false

/-- Some `AllocationRecord` with `is_active = true` references the laptop. -/
def hasActiveAllocation (s : Store) (laptopId : Nat) : Bool :=
  s.allocations.any (fun a => a.laptop_id == laptopId && a.is_active)

/-- Status/ledger agreement: for every laptop in the store,
`status == Allocated` iff an active allocation record references it. -/
def statusLedgerAgreement (s : Store) : Bool :=
  s.laptops.all (fun l => laptopStatusAllocated s l == hasActiveAllocation s l.id)

/-- The status vocabulary seeded by `db/seed.py` (`seed_data`), in insertion
order with autoincrement ids. -/
def seedStatuses : List LaptopStatus :=
  [ { id := 1, status_name := "Available" },
    { id := 2, status_name := "Allocated" },
    { id := 3, status_name := "Under Repair" },
    { id := 4, status_name := "Retired" },
    { id := 5, status_name := "Lost" } ]

/-- The store right after seeding: the five status rows and the admin user. -/
def seedStore : Store :=
  { statuses := seedStatuses
    laptops := []
    users := [adminUser]
    allocations := []
    nextLaptopId := 1
    nextAllocId := 1 }

/-- A concrete laptop-creation request used by witnesses. -/
def demoLaptop : CreateLaptop :=
  { laptop_brand := "Dell"
    laptop_model := "XPS 13"
    serial_number := "SN-001"
    laptop_name := "Alpha"
    asset_tag := "A-1"
    status_id := 1
    business_unit_id := none }

/-- A concrete allocation request (admin allocates laptop 1 to user 1). -/
def demoAllocationInput : CreateAllocation :=
  { user_id := 1
    laptop_id := 1
    allocation_date := 20260101
    allocation_condition := "good"
    reason_for_allocation := "field work" }

/-- A concrete return request. -/
def demoReturnInput : CreateReturn :=
  { return_date := 20260301
    return_comment := "returned intact"
    condition_on_return := "good" }

/-- Seeded store with one laptop and one open allocation for it. -/
def sAlloc : Store :=
  runOps seedStore
    [Op.newLaptop demoLaptop, Op.createAllocation demoAllocationInput 1]

/-- Store `sAlloc` after the laptop came back: allocation 1 is terminal and the
laptop is `Available` again. -/
def sRet : Store :=
  runOps seedStore
    [Op.newLaptop demoLaptop, Op.createAllocation demoAllocationInput 1,
     Op.returnLaptop 1 demoReturnInput 1]

example : statusLedgerAgreement sAlloc = true := by decide
example : statusLedgerAgreement sRet = true := by decide
example : (findAllocationRec sRet 1).map (fun b => b.is_active) = some false := by decide

/-- The ledger row created by the first allocation in `sAlloc`/`sRet`. -/
def row1 : LaptopAllocation := newAllocationRow demoAllocationInput 1 1

/-- The laptop row of `sAlloc`: still the demo laptop, but flipped to the
`"Allocated"` status (id 2). -/
def laptopRowAllocated : LaptopDetail :=
  { id := 1
    laptop_brand := "Dell"
    laptop_model := "XPS 13"
    serial_number := "SN-001"
    laptop_name := "alpha"
    asset_tag := "A-1"
    status_id := 2
    business_unit_id := none }

example : findAllocationRec sAlloc 1 = some row1 := by decide
example : findLaptop sAlloc 1 = some laptopRowAllocated := by decide

/-! ### Helper lemmas about the store primitives -/

theorem find?_append_left {α : Type} (l₁ l₂ : List α) (p : α → Bool) (a : α)
    (h : l₁.find? p = some a) : (l₁ ++ l₂).find? p = some a := by
  induction l₁ with
  | nil => simp [List.find?] at h
  | cons hd tl ih =>
      rw [List.cons_append]
      rw [List.find?] at h ⊢
      cases hp : p hd with
      | true => rw [hp] at h; simpa using h
      | false => rw [hp] at h; exact ih h

theorem findAllocationRec_putAllocationRec (s : Store) (i₀ : Nat)
    (u : LaptopAllocation) (hu : u.id = i₀) (i : Nat) :
    findAllocationRec (putAllocationRec s i₀ u) i =
      (findAllocationRec s i).map (fun b => if b.id == i₀ then u else b) := by
  show (s.allocations.map (fun b => if b.id == i₀ then u else b)).find?
        (fun b => b.id == i) =
      (s.allocations.find? (fun b => b.id == i)).map
        (fun b => if b.id == i₀ then u else b)
  rw [List.find?_map]
  have hfun : ((fun b : LaptopAllocation => b.id == i) ∘
      fun b => if b.id == i₀ then u else b) =
      (fun b : LaptopAllocation => b.id == i) := by
    funext b
    show ((if b.id == i₀ then u else b).id == i) = (b.id == i)
    by_cases hb : b.id = i₀
    · simp [hb, hu]
    · simp [hb]
  rw [hfun]

theorem findAllocationRec_setLaptopStatus (s : Store) (j v i : Nat) :
    findAllocationRec (setLaptopStatus s j v) i = findAllocationRec s i := rfl

theorem laptops_setLaptopStatus (s : Store) (j v : Nat) :
    (setLaptopStatus s j v).laptops =
      s.laptops.map (fun l => if l.id == j then { l with status_id := v } else l) := rfl

theorem findLaptop_eq_some_id (s : Store) (i : Nat) (l : LaptopDetail)
    (h : findLaptop s i = some l) : l.id = i := by
  have := List.find?_some h
  simpa using this

theorem findAllocationRec_eq_some_id (s : Store) (i : Nat) (a : LaptopAllocation)
    (h : findAllocationRec s i = some a) : a.id = i := by
  have := List.find?_some h
  simpa using this

/-! ### C5 — return-form generation precedence -/

/-- C5: for every allocation whose `allocation_form` key is empty (Python-falsy:
`NULL` or `""`), `repo_create_return_form` fails with the fixed
precedence-violation error — regardless of any other field of the allocation
(`is_active` or anything else is never consulted on this path) — and, since
the guard precedes the `generate_allocation_form` call in the source, no PDF
payload is produced; the error is the spec's `PrecedenceViolation` category. -/
theorem generateReturnForm_requires_allocation_form
    (allocation : LaptopAllocation) (s : Store)
    (h : pyFalsyStr allocation.allocation_form = true) :
    repo_create_return_form allocation s =
      Except.error (Err.forbidden "Cannot generate return form before allocation Form") ∧
    isPrecedenceViolation
      (Err.forbidden "Cannot generate return form before allocation Form") = true := by
  constructor
  · unfold repo_create_return_form
    simp [h]
  · decide

/-- Witness for C5: generating a return form for the still-active allocation
`row1` (no allocation form attached) hits the precedence guard. -/
theorem generateReturnForm_requires_allocation_form_witness :
    pyFalsyStr row1.allocation_form = true ∧ row1.is_active = true ∧
    repo_create_return_form row1 sAlloc =
      Except.error (Err.forbidden "Cannot generate return form before allocation Form") :=
  ⟨by decide, by decide,
   (generateReturnForm_requires_allocation_form row1 sAlloc (by decide)).1⟩

/-! ### C8 — direct status change is unconditional -/

/-- C8: `repo_modify_laptop_status` succeeds for every existing laptop and
every target status id `c.status_id`, rewriting the laptop's `status_id`
without consulting allocations or the current status (no terminal-state
guard); the only failure is the 404 when the laptop row is missing. -/
theorem modifyLaptopStatus_unconditional
    (i : Nat) (c : ChangeLaptopStatus) (s : Store) (admin : User) :
    (∀ laptop, findLaptop s i = some laptop →
        repo_modify_laptop_status i c s admin =
          (setLaptopStatus s i c.status_id,
           Except.ok { laptop with status_id := c.status_id }) ∧
        (∀ l' ∈ (setLaptopStatus s i c.status_id).laptops,
            l'.id = i → l'.status_id = c.status_id)) ∧
    (findLaptop s i = none →
        repo_modify_laptop_status i c s admin =
          (s, Except.error (Err.notFound "⚠️!!!LAPTOP NOT FOUND!!!⚠️"))) := by
  constructor
  · intro laptop h
    constructor
    · unfold repo_modify_laptop_status
      rw [h]
    · intro l' hl' hid
      rw [laptops_setLaptopStatus] at hl'
      rcases List.mem_map.mp hl' with ⟨l, _, rfl⟩
      by_cases hb : l.id = i
      · simp [hb]
      · exfalso
        simp [hb] at hid
  · intro h
    unfold repo_modify_laptop_status
    rw [h]

/-- Witness for C8: the laptop of `sAlloc` has an open active allocation and
status `Allocated`, yet a direct change to status 4 (`Retired`) succeeds; a
missing laptop id gives the 404. -/
theorem modifyLaptopStatus_unconditional_witness :
    hasActiveAllocation sAlloc 1 = true ∧
    repo_modify_laptop_status 1 ⟨4⟩ sAlloc adminUser =
      (setLaptopStatus sAlloc 1 4,
       Except.ok { laptopRowAllocated with status_id := 4 }) ∧
    repo_modify_laptop_status 99 ⟨4⟩ sAlloc adminUser =
      (sAlloc, Except.error (Err.notFound "⚠️!!!LAPTOP NOT FOUND!!!⚠️")) :=
  ⟨by decide,
   ((modifyLaptopStatus_unconditional 1 ⟨4⟩ sAlloc adminUser).1
      laptopRowAllocated (by decide)).1,
   (modifyLaptopStatus_unconditional 99 ⟨4⟩ sAlloc adminUser).2 (by decide)⟩

/-! ### C10 — allocation-form upload has no lifecycle guard -/

/-- C10: `repo_upload_form` succeeds for every existing allocation — active or
returned, with or without a previous key — overwriting `allocation_form` with
the new storage key and leaving every other column of the record unchanged;
the only failure is the 404 when the allocation row is missing. -/
theorem uploadAllocationForm_lastWriteWins
    (i : Nat) (s : Store) (object_name : String) (admin : User) :
    (∀ allocation, findAllocationRec s i = some allocation →
        repo_upload_form i s object_name admin =
          (putAllocationRec s i { allocation with allocation_form := some object_name },
           Except.ok { allocation with allocation_form := some object_name }) ∧
        findAllocationRec (repo_upload_form i s object_name admin).1 i =
          some { allocation with allocation_form := some object_name } ∧
        ({ allocation with allocation_form := some object_name }.allocation_form
            = some object_name ∧
         { allocation with allocation_form := some object_name }.is_active
            = allocation.is_active ∧
         { allocation with allocation_form := some object_name }.return_form
            = allocation.return_form ∧
         { allocation with allocation_form := some object_name }.return_date
            = allocation.return_date ∧
         { allocation with allocation_form := some object_name }.return_comment
            = allocation.return_comment ∧
         { allocation with allocation_form := some object_name }.returned_by
            = allocation.returned_by ∧
         { allocation with allocation_form := some object_name }.condition_on_return
            = allocation.condition_on_return ∧
         { allocation with allocation_form := some object_name }.user_id
            = allocation.user_id ∧
         { allocation with allocation_form := some object_name }.laptop_id
            = allocation.laptop_id ∧
         { allocation with allocation_form := some object_name }.allocation_date
            = allocation.allocation_date ∧
         { allocation with allocation_form := some object_name }.allocated_by
            = allocation.allocated_by ∧
         { allocation with allocation_form := some object_name }.allocation_condition
            = allocation.allocation_condition ∧
         { allocation with allocation_form := some object_name }.reason_for_allocation
            = allocation.reason_for_allocation ∧
         { allocation with allocation_form := some object_name }.id
            = allocation.id)) ∧
    (findAllocationRec s i = none →
        repo_upload_form i s object_name admin =
          (s, Except.error (Err.notFound "!!!Allocation not found!!!"))) := by
  constructor
  · intro allocation h
    have heq : repo_upload_form i s object_name admin =
        (putAllocationRec s i { allocation with allocation_form := some object_name },
         Except.ok { allocation with allocation_form := some object_name }) := by
      unfold repo_upload_form
      rw [h]
    refine ⟨heq, ?_, by simp⟩
    rw [heq]
    have hid : allocation.id = i := findAllocationRec_eq_some_id s i allocation h
    rw [findAllocationRec_putAllocationRec s i
          { allocation with allocation_form := some object_name } (by simpa using hid) i,
        h]
    simp [hid]
  · intro h
    unfold repo_upload_form
    rw [h]

/-- Witness for C10: re-uploading onto allocation 1 of `sRet` — already
returned (`is_active = false`, return fields populated) — succeeds and
overwrites the key; a missing allocation id gives the 404. -/
theorem uploadAllocationForm_lastWriteWins_witness :
    (findAllocationRec sRet 1).map (fun b => b.is_active) = some false ∧
    (repo_upload_form 1 sRet "allocation_forms/1/k2_signed.pdf" adminUser).2 =
      Except.ok { returnedRow row1 demoReturnInput 1 with
                  allocation_form := some "allocation_forms/1/k2_signed.pdf" } ∧
    repo_upload_form 42 sRet "allocation_forms/42/k.pdf" adminUser =
      (sRet, Except.error (Err.notFound "!!!Allocation not found!!!")) :=
  ⟨by decide,
   congrArg Prod.snd
     (((uploadAllocationForm_lastWriteWins 1 sRet "allocation_forms/1/k2_signed.pdf"
         adminUser).1 (returnedRow row1 demoReturnInput 1) (by decide)).1),
   (uploadAllocationForm_lastWriteWins 42 sRet "allocation_forms/42/k.pdf"
      adminUser).2 (by decide)⟩

/-! ### C3 — return-form upload gating -/

/-- C3: for every existing allocation, `repo_upload_return_form` fails with
the fixed 403 while `is_active = true`, leaving the store (hence the
allocation) unchanged; and whenever `is_active = false` it succeeds, setting
`return_form` to the new storage key. -/
theorem uploadReturnForm_gating
    (i : Nat) (s : Store) (object_name : String) (admin : User)
    (allocation : LaptopAllocation)
    (h : findAllocationRec s i = some allocation) :
    (allocation.is_active = true →
        repo_upload_return_form i s object_name admin =
          (s, Except.error (Err.forbidden
            "This laptop is still in use. Return it in the system before uploading a return form"))) ∧
    (allocation.is_active = false →
        repo_upload_return_form i s object_name admin =
          (putAllocationRec s i { allocation with return_form := some object_name },
           Except.ok { allocation with return_form := some object_name }) ∧
        findAllocationRec (repo_upload_return_form i s object_name admin).1 i =
          some { allocation with return_form := some object_name }) := by
  constructor
  · intro hAct
    simp [repo_upload_return_form, h, hAct]
  · intro hAct
    have heq : repo_upload_return_form i s object_name admin =
        (putAllocationRec s i { allocation with return_form := some object_name },
         Except.ok { allocation with return_form := some object_name }) := by
      simp [repo_upload_return_form, h, hAct]
    refine ⟨heq, ?_⟩
    rw [heq]
    have hid : allocation.id = i := findAllocationRec_eq_some_id s i allocation h
    rw [findAllocationRec_putAllocationRec s i
          { allocation with return_form := some object_name } (by simpa using hid) i,
        h]
    simp [hid]

/-- Witness for C3: uploading against the active allocation of `sAlloc` is
rejected with the 403 and the store is untouched; uploading against the
returned allocation of `sRet` succeeds and sets the key. -/
theorem uploadReturnForm_gating_witness :
    repo_upload_return_form 1 sAlloc "return_forms/1/k.pdf" adminUser =
      (sAlloc, Except.error (Err.forbidden
        "This laptop is still in use. Return it in the system before uploading a return form")) ∧
    (repo_upload_return_form 1 sRet "return_forms/1/k.pdf" adminUser).2 =
      Except.ok { returnedRow row1 demoReturnInput 1 with
                  return_form := some "return_forms/1/k.pdf" } :=
  ⟨(uploadReturnForm_gating 1 sAlloc "return_forms/1/k.pdf" adminUser row1
      (by decide)).1 (by decide),
   congrArg Prod.snd
     ((uploadReturnForm_gating 1 sRet "return_forms/1/k.pdf" adminUser
         (returnedRow row1 demoReturnInput 1) (by decide)).2 (by decide)).1⟩

/-! ### C2 — ReturnLaptop postcondition and failure modes -/

/-- Store used to probe the missing-`"Available"`-row failure: the status
vocabulary lacks the `"Available"` row, but allocation 1 and its laptop
exist. -/
def sNoAvail : Store :=
  { statuses := [ { id := 2, status_name := "Allocated" } ]
    laptops := [laptopRowAllocated]
    users := [adminUser]
    allocations := [row1]
    nextLaptopId := 2
    nextAllocId := 2 }

/-- C2 counterexample: with allocation 1 present but the `"Available"` status
row missing, `repo_return_laptop` does not fail with `NotFound` — the source
dereferences the `None` status lookup (`status_we_want.id`) and dies with an
uncategorized internal error. -/
theorem returnLaptop_notFound_claim_counterexample :
    findAllocationRec sNoAvail 1 = some row1 ∧
    findStatusByName sNoAvail "Available" = none ∧
    (repo_return_laptop 1 demoReturnInput sNoAvail 1).2 = Except.error Err.internal ∧
    Err.isNotFound Err.internal = false := by decide

/-- C2 (amended): a successful `repo_return_laptop` marks the record inactive,
populates the four return fields from the inputs, persists the updated record,
and flips the referenced laptop to the `"Available"` status id; a missing
allocation fails with the 404; but a missing `"Available"` status row crashes
with an uncategorized internal error (`None` dereference), not `NotFound`,
leaving the store unchanged. -/
theorem returnLaptop_postcondition_and_failures
    (i : Nat) (r : CreateReturn) (s : Store) (aid : Nat) :
    (∀ alloc laptop stV uA uU,
        findAllocationRec s i = some alloc →
        findLaptop s alloc.laptop_id = some laptop →
        findStatusByName s "Available" = some stV →
        findUser s aid = some uA →
        findUser s alloc.user_id = some uU →
        repo_return_laptop i r s aid =
          (setLaptopStatus (putAllocationRec s i (returnedRow alloc r aid))
             laptop.id stV.id,
           Except.ok (returnedRow alloc r aid)) ∧
        (returnedRow alloc r aid).is_active = false ∧
        (returnedRow alloc r aid).return_date = some r.return_date ∧
        (returnedRow alloc r aid).return_comment = some r.return_comment ∧
        (returnedRow alloc r aid).condition_on_return = some r.condition_on_return ∧
        (returnedRow alloc r aid).returned_by = some aid ∧
        findAllocationRec (repo_return_laptop i r s aid).1 i =
          some (returnedRow alloc r aid) ∧
        (∀ l' ∈ (repo_return_laptop i r s aid).1.laptops,
            l'.id = alloc.laptop_id → l'.status_id = stV.id)) ∧
    (findAllocationRec s i = none →
        repo_return_laptop i r s aid =
          (s, Except.error (Err.notFound "!!!Allocation not found!!!"))) ∧
    (∀ alloc, findAllocationRec s i = some alloc →
        findStatusByName s "Available" = none →
        repo_return_laptop i r s aid = (s, Except.error Err.internal)) := by
  refine ⟨?_, ?_, ?_⟩
  · intro alloc laptop stV uA uU hF hL hS hUA hUU
    have heq : repo_return_laptop i r s aid =
        (setLaptopStatus (putAllocationRec s i (returnedRow alloc r aid))
           laptop.id stV.id,
         Except.ok (returnedRow alloc r aid)) := by
      simp [repo_return_laptop, returnedRow, hF, hL, hS, hUA, hUU]
    have hid : alloc.id = i := findAllocationRec_eq_some_id s i alloc hF
    have hlap : laptop.id = alloc.laptop_id := findLaptop_eq_some_id s _ laptop hL
    refine ⟨heq, rfl, rfl, rfl, rfl, rfl, ?_, ?_⟩
    · rw [heq]
      show findAllocationRec (setLaptopStatus (putAllocationRec s i
            (returnedRow alloc r aid)) laptop.id stV.id) i =
          some (returnedRow alloc r aid)
      rw [findAllocationRec_setLaptopStatus,
          findAllocationRec_putAllocationRec s i (returnedRow alloc r aid)
            (by simpa [returnedRow] using hid) i, hF]
      simp [hid]
    · intro l' hl' hid'
      rw [heq, laptops_setLaptopStatus] at hl'
      rcases List.mem_map.mp hl' with ⟨l, _, rfl⟩
      by_cases hb : l.id = laptop.id
      · simp [hb]
      · exfalso
        simp only [beq_iff_eq, hb, if_false] at hid'
        exact hb (hid'.trans hlap.symm)
  · intro hF
    simp [repo_return_laptop, hF]
  · intro alloc hF hS
    cases hL : findLaptop s alloc.laptop_id with
    | none => simp [repo_return_laptop, hF, hS, hL]
    | some laptop => simp [repo_return_laptop, hF, hS, hL]

/-- Witness for C2: returning allocation 1 of `sAlloc` succeeds with the
populated terminal record; a missing allocation id 404s; returning against
`sNoAvail` (no `"Available"` row) gives the internal crash. -/
theorem returnLaptop_postcondition_and_failures_witness :
    (repo_return_laptop 1 demoReturnInput sAlloc 1).2 =
      Except.ok (returnedRow row1 demoReturnInput 1) ∧
    repo_return_laptop 99 demoReturnInput sAlloc 1 =
      (sAlloc, Except.error (Err.notFound "!!!Allocation not found!!!")) ∧
    repo_return_laptop 1 demoReturnInput sNoAvail 1 =
      (sNoAvail, Except.error Err.internal) :=
  ⟨congrArg Prod.snd
     (((returnLaptop_postcondition_and_failures 1 demoReturnInput sAlloc 1).1
         row1 laptopRowAllocated { id := 1, status_name := "Available" }
         adminUser adminUser (by decide) (by decide) (by decide) (by decide)
         (by decide)).1),
   (returnLaptop_postcondition_and_failures 99 demoReturnInput sAlloc 1).2.1
     (by decide),
   (returnLaptop_postcondition_and_failures 1 demoReturnInput sNoAvail 1).2.2
     row1 (by decide) (by decide)⟩

/-! ### C6 — CreateAllocation failure mode -/

/-- Store with a laptop but no `"Allocated"` status row. -/
def sNoAllocatedRow : Store :=
  { statuses := [ { id := 1, status_name := "Available" } ]
    laptops := [ { laptopRowAllocated with status_id := 1 } ]
    users := [adminUser]
    allocations := []
    nextLaptopId := 2
    nextAllocId := 1 }

/-- C6 counterexample: creating an allocation for a laptop id that does not
exist (the seeded store has no laptops) does not fail with `NotFound` — the
source has no existence check and dies with an uncategorized internal error on
the `None` dereference `laptop.status_id = status_we_want.id`. -/
theorem createAllocation_notFound_claim_counterexample :
    findLaptop seedStore 1 = none ∧
    (repo_create_allocation demoAllocationInput seedStore 1).2 =
      Except.error Err.internal ∧
    Err.isNotFound Err.internal = false := by decide

/-- C6 (amended): whenever the referenced laptop or the `"Allocated"` status
row is missing, `repo_create_allocation` fails with an uncategorized internal
error (uncaught `AttributeError` on a `None` dereference), not a
client-visible `NotFound`; the crash happens before the commit, so no
`AllocationRecord` is inserted and no laptop status is changed (the store is
returned unchanged). -/
theorem createAllocation_missing_rows_internal
    (alloc : CreateAllocation) (s : Store) (aid : Nat)
    (h : findLaptop s alloc.laptop_id = none ∨
         findStatusByName s "Allocated" = none) :
    repo_create_allocation alloc s aid = (s, Except.error Err.internal) := by
  rcases h with h | h
  · cases hS : findStatusByName s "Allocated" with
    | none => simp [repo_create_allocation, h, hS]
    | some st => simp [repo_create_allocation, h, hS]
  · cases hL : findLaptop s alloc.laptop_id with
    | none => simp [repo_create_allocation, h, hL]
    | some laptop => simp [repo_create_allocation, h, hL]

/-- Witness for C6 (amended): missing laptop (seeded store) and missing
`"Allocated"` row both crash internally with the store unchanged. -/
theorem createAllocation_missing_rows_internal_witness :
    repo_create_allocation demoAllocationInput seedStore 1 =
      (seedStore, Except.error Err.internal) ∧
    repo_create_allocation demoAllocationInput sNoAllocatedRow 1 =
      (sNoAllocatedRow, Except.error Err.internal) :=
  ⟨createAllocation_missing_rows_internal demoAllocationInput seedStore 1
     (Or.inl (by decide)),
   createAllocation_missing_rows_internal demoAllocationInput sNoAllocatedRow 1
     (Or.inr (by decide))⟩

/-! ### C7 — CreateAllocation has no double-booking guard -/

/-- C7: for every existing laptop, user and allocator, and *whatever* the
laptop's current status (no hypothesis constrains it, and no branch of the
source inspects it), `repo_create_allocation` succeeds in one atomic unit:
the committed store both appends a fresh `AllocationRecord` with
`is_active = true` referencing the laptop and flips the laptop row to the
`"Allocated"` status id. -/
theorem createAllocation_permissive
    (alloc : CreateAllocation) (s : Store) (aid : Nat)
    (laptop : LaptopDetail) (stA : LaptopStatus) (uA uU : User)
    (hL : findLaptop s alloc.laptop_id = some laptop)
    (hS : findStatusByName s "Allocated" = some stA)
    (hUA : findUser s aid = some uA)
    (hUU : findUser s alloc.user_id = some uU) :
    repo_create_allocation alloc s aid =
      (createCommitted alloc s aid laptop.id stA.id,
       Except.ok (newAllocationRow alloc s.nextAllocId aid)) ∧
    (newAllocationRow alloc s.nextAllocId aid).is_active = true ∧
    (newAllocationRow alloc s.nextAllocId aid).laptop_id = alloc.laptop_id ∧
    (createCommitted alloc s aid laptop.id stA.id).allocations =
      s.allocations ++ [newAllocationRow alloc s.nextAllocId aid] ∧
    (∀ l' ∈ (createCommitted alloc s aid laptop.id stA.id).laptops,
        l'.id = alloc.laptop_id → l'.status_id = stA.id) := by
  have hlap : laptop.id = alloc.laptop_id := findLaptop_eq_some_id s _ laptop hL
  refine ⟨?_, rfl, rfl, rfl, ?_⟩
  · simp [repo_create_allocation, hL, hS, hUA, hUU]
  · intro l' hl' hid'
    have : l' ∈ (setLaptopStatus s laptop.id stA.id).laptops := hl'
    rw [laptops_setLaptopStatus] at this
    rcases List.mem_map.mp this with ⟨l, _, rfl⟩
    by_cases hb : l.id = laptop.id
    · simp [hb]
    · exfalso
      simp only [beq_iff_eq, hb, if_false] at hid'
      exact hb (hid'.trans hlap.symm)

/-- Witness for C7: the laptop of `sAlloc` is already `Allocated` with an open
active record, yet a second allocation of the same laptop succeeds and appends
a second active record — the double-booking the spec warns about. -/
theorem createAllocation_permissive_witness :
    hasActiveAllocation sAlloc 1 = true ∧
    laptopStatusAllocated sAlloc laptopRowAllocated = true ∧
    (repo_create_allocation demoAllocationInput sAlloc 1).2 =
      Except.ok (newAllocationRow demoAllocationInput 2 1) :=
  ⟨by decide, by decide,
   congrArg Prod.snd
     (createAllocation_permissive demoAllocationInput sAlloc 1
        laptopRowAllocated { id := 2, status_name := "Allocated" }
        adminUser adminUser (by decide) (by decide) (by decide) (by decide)).1⟩

/-! ### C4 — document-ordering invariant is not enforced -/

/-- A reachable store violating the document-ordering invariant: laptop
created, allocated, returned, and a return form uploaded without any
allocation form ever being attached. -/
def sViol : Store :=
  runOps seedStore
    [Op.newLaptop demoLaptop, Op.createAllocation demoAllocationInput 1,
     Op.returnLaptop 1 demoReturnInput 1,
     Op.uploadReturnForm 1 "return_forms/1/sig.pdf"]

/-- C4 counterexample: after the operation sequence of `sViol`, allocation 1
has `return_form` set while `allocation_form` is still empty — the claimed
invariant fails on a state reachable by the system's own operations. -/
theorem returnFormOrdering_counterexample :
    (findAllocationRec sViol 1).map (fun b => (b.allocation_form, b.return_form)) =
      some (none, some "return_forms/1/sig.pdf") := by decide

/-- C4 (amended): `repo_upload_return_form` gates only on `is_active` and
never consults `allocation_form`; for every inactive allocation whose
allocation-form key is unset, the upload succeeds and sets `return_form`
while `allocation_form` stays empty, so the ordering invariant is not
enforced by any operation (the only allocation-form-precedence guard in the
source sits in return-form *generation*, `repo_create_return_form`). -/
theorem uploadReturnForm_ignores_allocation_form
    (i : Nat) (s : Store) (object_name : String) (admin : User)
    (allocation : LaptopAllocation)
    (h : findAllocationRec s i = some allocation)
    (hAct : allocation.is_active = false)
    (hForm : allocation.allocation_form = none) :
    (repo_upload_return_form i s object_name admin).2 =
      Except.ok { allocation with return_form := some object_name } ∧
    (findAllocationRec (repo_upload_return_form i s object_name admin).1 i).map
        (fun b => (b.allocation_form, b.return_form)) =
      some (none, some object_name) := by
  have heq : repo_upload_return_form i s object_name admin =
      (putAllocationRec s i { allocation with return_form := some object_name },
       Except.ok { allocation with return_form := some object_name }) := by
    simp [repo_upload_return_form, h, hAct]
  have hid : allocation.id = i := findAllocationRec_eq_some_id s i allocation h
  constructor
  · rw [heq]
  · rw [heq]
    show (findAllocationRec (putAllocationRec s i
          { allocation with return_form := some object_name }) i).map
        (fun b => (b.allocation_form, b.return_form)) =
      some (none, some object_name)
    rw [findAllocationRec_putAllocationRec s i
          { allocation with return_form := some object_name }
          (by simpa using hid) i, h]
    simp [hid, hForm]

/-- Witness for C4 (amended): uploading a return form onto the returned,
form-less allocation 1 of `sRet` succeeds and leaves `allocation_form` empty
with `return_form` set. -/
theorem uploadReturnForm_ignores_allocation_form_witness :
    (repo_upload_return_form 1 sRet "return_forms/1/sig.pdf" adminUser).2 =
      Except.ok { returnedRow row1 demoReturnInput 1 with
                  return_form := some "return_forms/1/sig.pdf" } ∧
    (findAllocationRec
        (repo_upload_return_form 1 sRet "return_forms/1/sig.pdf" adminUser).1 1).map
        (fun b => (b.allocation_form, b.return_form)) =
      some (none, some "return_forms/1/sig.pdf") :=
  uploadReturnForm_ignores_allocation_form 1 sRet "return_forms/1/sig.pdf"
    adminUser (returnedRow row1 demoReturnInput 1) (by decide) (by decide)
    (by decide)

/-! ### Store-shape lemmas: the store each operation can leave behind -/

theorem createAllocation_store_shape (alloc : CreateAllocation) (s : Store)
    (aid : Nat) :
    (repo_create_allocation alloc s aid).1 = s ∨
    (repo_create_allocation alloc s aid).1.allocations =
      s.allocations ++ [newAllocationRow alloc s.nextAllocId aid] := by
  cases hL : findLaptop s alloc.laptop_id with
  | none =>
      cases hS : findStatusByName s "Allocated" <;>
        (left; simp [repo_create_allocation, hL, hS])
  | some laptop =>
    cases hS : findStatusByName s "Allocated" with
    | none => left; simp [repo_create_allocation, hL, hS]
    | some st =>
      cases hUA : findUser s aid with
      | none =>
          cases hUU : findUser s alloc.user_id <;>
            (right;
             simp [repo_create_allocation, hL, hS, hUA, hUU, createCommitted])
      | some u =>
        cases hUU : findUser s alloc.user_id <;>
          (right;
           simp [repo_create_allocation, hL, hS, hUA, hUU, createCommitted])

theorem returnLaptop_store_shape (j : Nat) (r : CreateReturn) (s : Store)
    (aid : Nat) :
    (repo_return_laptop j r s aid).1 = s ∨
    ∃ (alloc : LaptopAllocation) (laptop : LaptopDetail) (stV : LaptopStatus),
      findAllocationRec s j = some alloc ∧
      (repo_return_laptop j r s aid).1 =
        setLaptopStatus (putAllocationRec s j (returnedRow alloc r aid))
          laptop.id stV.id := by
  cases hF : findAllocationRec s j with
  | none => left; simp [repo_return_laptop, hF]
  | some alloc =>
    cases hL : findLaptop s alloc.laptop_id with
    | none =>
        cases hS : findStatusByName s "Available" <;>
          (left; simp [repo_return_laptop, hF, hL, hS])
    | some laptop =>
      cases hS : findStatusByName s "Available" with
      | none => left; simp [repo_return_laptop, hF, hL, hS]
      | some stV =>
        cases hUA : findUser s aid with
        | none =>
            cases hUU : findUser s alloc.user_id <;>
              (left; simp [repo_return_laptop, hF, hL, hS, hUA, hUU])
        | some u =>
          cases hUU : findUser s alloc.user_id with
          | none => left; simp [repo_return_laptop, hF, hL, hS, hUA, hUU]
          | some v =>
              right
              exact ⟨alloc, laptop, stV, rfl,
                by simp [repo_return_laptop, returnedRow, hF, hL, hS, hUA, hUU]⟩

theorem uploadForm_store_shape (j : Nat) (s : Store) (o : String) (admin : User) :
    (repo_upload_form j s o admin).1 = s ∨
    ∃ allocation, findAllocationRec s j = some allocation ∧
      (repo_upload_form j s o admin).1 =
        putAllocationRec s j { allocation with allocation_form := some o } := by
  cases hF : findAllocationRec s j with
  | none => left; simp [repo_upload_form, hF]
  | some allocation =>
      right
      exact ⟨allocation, rfl, by simp [repo_upload_form, hF]⟩

theorem uploadReturnForm_store_shape (j : Nat) (s : Store) (o : String)
    (admin : User) :
    (repo_upload_return_form j s o admin).1 = s ∨
    ∃ allocation, findAllocationRec s j = some allocation ∧
      (repo_upload_return_form j s o admin).1 =
        putAllocationRec s j { allocation with return_form := some o } := by
  cases hF : findAllocationRec s j with
  | none => left; simp [repo_upload_return_form, hF]
  | some allocation =>
      cases hAct : allocation.is_active with
      | true => left; simp [repo_upload_return_form, hF, hAct]
      | false =>
          right
          exact ⟨allocation, rfl, by simp [repo_upload_return_form, hF, hAct]⟩

theorem modifyLaptopStatus_store_shape (j : Nat) (c : ChangeLaptopStatus)
    (s : Store) (admin : User) :
    (repo_modify_laptop_status j c s admin).1 = s ∨
    (repo_modify_laptop_status j c s admin).1 = setLaptopStatus s j c.status_id := by
  cases hL : findLaptop s j with
  | none => left; simp [repo_modify_laptop_status, hL]
  | some laptop => right; simp [repo_modify_laptop_status, hL]

theorem same_allocations_inactive (s t : Store) (i : Nat)
    (a b : LaptopAllocation) (ht : t.allocations = s.allocations)
    (hFind : findAllocationRec s i = some a) (hInactive : a.is_active = false)
    (hAfter : findAllocationRec t i = some b) : b.is_active = false := by
  have h : findAllocationRec t i = findAllocationRec s i := by
    show t.allocations.find? (fun x => x.id == i) =
      s.allocations.find? (fun x => x.id == i)
    rw [ht]
  rw [h, hFind] at hAfter
  injection hAfter with h2
  rw [← h2]
  exact hInactive

/-! ### C9 — return is terminal -/

/-- C9: once an allocation record is inactive, no operation of the system —
a repeated `repo_return_laptop` on it, a `repo_create_allocation` (which only
appends a fresh record), either form upload, a direct status change, or a
laptop insert — ever produces a store in which that record is active again. -/
theorem inactiveAllocation_stays_inactive
    (s : Store) (op : Op) (i : Nat) (a b : LaptopAllocation)
    (hFind : findAllocationRec s i = some a)
    (hInactive : a.is_active = false)
    (hAfter : findAllocationRec (applyOp s op) i = some b) :
    b.is_active = false := by
  cases op with
  | newLaptop l =>
      exact same_allocations_inactive s _ i a b rfl hFind hInactive hAfter
  | createAllocation alloc aid =>
      rcases createAllocation_store_shape alloc s aid with h | h
      · exact same_allocations_inactive s _ i a b
          (by show (repo_create_allocation alloc s aid).1.allocations = s.allocations
              rw [h]) hFind hInactive hAfter
      · have h2 : findAllocationRec (applyOp s (Op.createAllocation alloc aid)) i =
            (s.allocations ++ [newAllocationRow alloc s.nextAllocId aid]).find?
              (fun x => x.id == i) := by
          show (repo_create_allocation alloc s aid).1.allocations.find?
              (fun x => x.id == i) = _
          rw [h]
        rw [h2, find?_append_left s.allocations _ _ a hFind] at hAfter
        injection hAfter with h3
        rw [← h3]
        exact hInactive
  | returnLaptop j r aid =>
      rcases returnLaptop_store_shape j r s aid with h | ⟨alloc, laptop, stV, hF, h⟩
      · exact same_allocations_inactive s _ i a b
          (by show (repo_return_laptop j r s aid).1.allocations = s.allocations
              rw [h]) hFind hInactive hAfter
      · have hu : (returnedRow alloc r aid).id = j := by
          simpa [returnedRow] using findAllocationRec_eq_some_id s j alloc hF
        have h2 : findAllocationRec (applyOp s (Op.returnLaptop j r aid)) i =
            (findAllocationRec s i).map
              (fun x => if x.id == j then returnedRow alloc r aid else x) := by
          show findAllocationRec (repo_return_laptop j r s aid).1 i = _
          rw [h, findAllocationRec_setLaptopStatus,
              findAllocationRec_putAllocationRec s j _ hu i]
        rw [h2, hFind] at hAfter
        obtain rfl : (if a.id == j then returnedRow alloc r aid else a) = b := by
          simpa using hAfter
        by_cases hb : a.id = j
        · simp [hb, returnedRow]
        · simp [hb, hInactive]
  | uploadAllocationForm j o =>
      rcases uploadForm_store_shape j s o adminUser with h | ⟨allocation, hF, h⟩
      · exact same_allocations_inactive s _ i a b
          (by show (repo_upload_form j s o adminUser).1.allocations = s.allocations
              rw [h]) hFind hInactive hAfter
      · have hu : ({ allocation with allocation_form := some o } :
            LaptopAllocation).id = j := by
          simpa using findAllocationRec_eq_some_id s j allocation hF
        have h2 : findAllocationRec (applyOp s (Op.uploadAllocationForm j o)) i =
            (findAllocationRec s i).map
              (fun x => if x.id == j then
                { allocation with allocation_form := some o } else x) := by
          show findAllocationRec (repo_upload_form j s o adminUser).1 i = _
          rw [h, findAllocationRec_putAllocationRec s j _ hu i]
        rw [h2, hFind] at hAfter
        obtain rfl : (if a.id == j then
            { allocation with allocation_form := some o } else a) = b := by
          simpa using hAfter
        by_cases hb : a.id = j
        · have hai : a.id = i := findAllocationRec_eq_some_id s i a hFind
          have hij : i = j := by rw [← hai]; exact hb
          have hallo : allocation = a := by
            have h6 : some allocation = some a := by
              rw [← hF, ← hij]
              exact hFind
            exact Option.some.inj h6
          simp [hb, hallo, hInactive]
        · simp [hb, hInactive]
  | uploadReturnForm j o =>
      rcases uploadReturnForm_store_shape j s o adminUser with h | ⟨allocation, hF, h⟩
      · exact same_allocations_inactive s _ i a b
          (by show (repo_upload_return_form j s o adminUser).1.allocations = s.allocations
              rw [h]) hFind hInactive hAfter
      · have hu : ({ allocation with return_form := some o } :
            LaptopAllocation).id = j := by
          simpa using findAllocationRec_eq_some_id s j allocation hF
        have h2 : findAllocationRec (applyOp s (Op.uploadReturnForm j o)) i =
            (findAllocationRec s i).map
              (fun x => if x.id == j then
                { allocation with return_form := some o } else x) := by
          show findAllocationRec (repo_upload_return_form j s o adminUser).1 i = _
          rw [h, findAllocationRec_putAllocationRec s j _ hu i]
        rw [h2, hFind] at hAfter
        obtain rfl : (if a.id == j then
            { allocation with return_form := some o } else a) = b := by
          simpa using hAfter
        by_cases hb : a.id = j
        · have hai : a.id = i := findAllocationRec_eq_some_id s i a hFind
          have hij : i = j := by rw [← hai]; exact hb
          have hallo : allocation = a := by
            have h6 : some allocation = some a := by
              rw [← hF, ← hij]
              exact hFind
            exact Option.some.inj h6
          simp [hb, hallo, hInactive]
        · simp [hb, hInactive]
  | modifyLaptopStatus j c =>
      rcases modifyLaptopStatus_store_shape j c s adminUser with h | h
      · exact same_allocations_inactive s _ i a b
          (by show (repo_modify_laptop_status j c s adminUser).1.allocations
                = s.allocations
              rw [h]) hFind hInactive hAfter
      · exact same_allocations_inactive s _ i a b
          (by show (repo_modify_laptop_status j c s adminUser).1.allocations
                = s.allocations
              rw [h]
              rfl) hFind hInactive hAfter

/-- Witness for C9: re-applying `ReturnLaptop` to the already-returned
allocation 1 of `sRet` succeeds but the record stays inactive. -/
theorem inactiveAllocation_stays_inactive_witness :
    (returnedRow (returnedRow row1 demoReturnInput 1) demoReturnInput 1).is_active
      = false :=
  inactiveAllocation_stays_inactive sRet (Op.returnLaptop 1 demoReturnInput 1) 1
    (returnedRow row1 demoReturnInput 1)
    (returnedRow (returnedRow row1 demoReturnInput 1) demoReturnInput 1)
    (by decide) (by decide) (by decide)

/-! ### C1 — status/ledger agreement -/

/-- C1 counterexample: from the seeded store, create a laptop, allocate it
(agreement holds), then change its status directly back to `Available`
(status id 1). The status change succeeds and leaves the laptop not
`Allocated` while its allocation record is still active — the equivalence is
not preserved by `ChangeLaptopStatus`, so it does not hold in every reachable
state. -/
theorem statusLedgerAgreement_claim_counterexample :
    statusLedgerAgreement sAlloc = true ∧
    (repo_modify_laptop_status 1 { status_id := 1 } sAlloc adminUser).2 =
      Except.ok { laptopRowAllocated with status_id := 1 } ∧
    statusLedgerAgreement
      (applyOp sAlloc (Op.modifyLaptopStatus 1 { status_id := 1 })) = false :=
  ⟨by decide, by decide, by decide⟩

theorem createAllocation_preserves_agreement
    (alloc : CreateAllocation) (s : Store) (aid : Nat)
    (laptop : LaptopDetail) (stA : LaptopStatus)
    (hL : findLaptop s alloc.laptop_id = some laptop)
    (hS : findStatusByName s "Allocated" = some stA)
    (hAgr : statusLedgerAgreement s = true) :
    statusLedgerAgreement (repo_create_allocation alloc s aid).1 = true := by
  have hlap : laptop.id = alloc.laptop_id := findLaptop_eq_some_id s _ laptop hL
  have hstore : (repo_create_allocation alloc s aid).1 =
      createCommitted alloc s aid laptop.id stA.id := by
    cases hUA : findUser s aid with
    | none =>
        cases hUU : findUser s alloc.user_id <;>
          simp [repo_create_allocation, hL, hS, hUA, hUU]
    | some u =>
        cases hUU : findUser s alloc.user_id <;>
          simp [repo_create_allocation, hL, hS, hUA, hUU]
  rw [hstore]
  have hstat : findStatusByName (createCommitted alloc s aid laptop.id stA.id)
      "Allocated" = some stA := hS
  have hRHS : ∀ x, hasActiveAllocation (createCommitted alloc s aid laptop.id stA.id) x
      = (hasActiveAllocation s x || ((alloc.laptop_id == x) && true)) := by
    intro x
    show (s.allocations ++ [newAllocationRow alloc s.nextAllocId aid]).any
        (fun a => a.laptop_id == x && a.is_active) = _
    rw [List.any_append]
    simp [hasActiveAllocation, newAllocationRow]
  unfold statusLedgerAgreement at hAgr ⊢
  rw [List.all_eq_true] at hAgr ⊢
  intro l' hl'
  have hl2 : l' ∈ s.laptops.map
      (fun l => if l.id == laptop.id then { l with status_id := stA.id } else l) := hl'
  rcases List.mem_map.mp hl2 with ⟨l, hlm, rfl⟩
  rw [beq_iff_eq]
  by_cases hb : l.id = laptop.id
  · have h1 : (if l.id == laptop.id then { l with status_id := stA.id } else l)
        = { l with status_id := stA.id } := by simp [hb]
    rw [h1]
    have hble : l.id = alloc.laptop_id := hb.trans hlap
    have e1 : laptopStatusAllocated (createCommitted alloc s aid laptop.id stA.id)
        { l with status_id := stA.id } = true := by
      simp [laptopStatusAllocated, hstat]
    have e2 : hasActiveAllocation (createCommitted alloc s aid laptop.id stA.id)
        ({ l with status_id := stA.id } : LaptopDetail).id = true := by
      rw [hRHS]
      have hx : (alloc.laptop_id == ({ l with status_id := stA.id } :
          LaptopDetail).id) = true := by
        show (alloc.laptop_id == l.id) = true
        simp [hble]
      simp [hx]
    rw [e1, e2]
  · have h1 : (if l.id == laptop.id then { l with status_id := stA.id } else l)
        = l := by simp [hb]
    rw [h1]
    have e1 : laptopStatusAllocated (createCommitted alloc s aid laptop.id stA.id) l
        = laptopStatusAllocated s l := by
      simp [laptopStatusAllocated, hstat, hS]
    have hne : (alloc.laptop_id == l.id) = false := by
      rw [beq_eq_false_iff_ne]
      intro hcontra
      exact hb (hlap.trans hcontra).symm
    have e2 : hasActiveAllocation (createCommitted alloc s aid laptop.id stA.id) l.id
        = hasActiveAllocation s l.id := by
      rw [hRHS, hne]
      simp
    rw [e1, e2]
    have := hAgr l hlm
    rw [beq_iff_eq] at this
    exact this

theorem returnLaptop_preserves_agreement
    (i : Nat) (r : CreateReturn) (s : Store) (aid : Nat)
    (alloc : LaptopAllocation) (laptop : LaptopDetail) (stV : LaptopStatus)
    (uA uU : User)
    (hF : findAllocationRec s i = some alloc)
    (hL : findLaptop s alloc.laptop_id = some laptop)
    (hS : findStatusByName s "Available" = some stV)
    (hUA : findUser s aid = some uA)
    (hUU : findUser s alloc.user_id = some uU)
    (hUniq : ∀ b ∈ s.allocations, b.id = i → b = alloc)
    (hOnly : ∀ b ∈ s.allocations, b.laptop_id = alloc.laptop_id →
        b.is_active = true → b.id = i)
    (hDist : Option.all (fun stA => stA.id != stV.id)
        (findStatusByName s "Allocated") = true)
    (hAgr : statusLedgerAgreement s = true) :
    statusLedgerAgreement (repo_return_laptop i r s aid).1 = true := by
  have hlap : laptop.id = alloc.laptop_id := findLaptop_eq_some_id s _ laptop hL
  have hstore : (repo_return_laptop i r s aid).1 =
      setLaptopStatus (putAllocationRec s i (returnedRow alloc r aid))
        laptop.id stV.id := by
    simp [repo_return_laptop, returnedRow, hF, hL, hS, hUA, hUU]
  rw [hstore]
  have hAfterActive : ∀ x,
      ((s.allocations.map (fun b => if b.id == i then returnedRow alloc r aid else b)).any
        (fun b => b.laptop_id == x && b.is_active)) = true →
      ∃ b, b ∈ s.allocations ∧ b.laptop_id = x ∧ b.is_active = true ∧
        (b.id == i) = false := by
    intro x hx
    rw [List.any_eq_true] at hx
    rcases hx with ⟨c, hcm, hcq⟩
    rcases List.mem_map.mp hcm with ⟨b, hbm, rfl⟩
    by_cases hbid : b.id = i
    · exfalso
      have hc : (if b.id == i then returnedRow alloc r aid else b)
          = returnedRow alloc r aid := by simp [hbid]
      rw [hc] at hcq
      simp [returnedRow] at hcq
    · have hc : (if b.id == i then returnedRow alloc r aid else b) = b := by
        simp [hbid]
      rw [hc] at hcq
      rw [Bool.and_eq_true, beq_iff_eq] at hcq
      exact ⟨b, hbm, hcq.1, hcq.2, by simp [hbid]⟩
  have hPres : ∀ x, x ≠ alloc.laptop_id →
      ((s.allocations.map (fun b => if b.id == i then returnedRow alloc r aid else b)).any
        (fun b => b.laptop_id == x && b.is_active))
      = s.allocations.any (fun b => b.laptop_id == x && b.is_active) := by
    intro x hx
    rw [Bool.eq_iff_iff]
    constructor
    · intro h1
      rcases hAfterActive x h1 with ⟨b, hbm, hblap, hbact, _⟩
      rw [List.any_eq_true]
      exact ⟨b, hbm, by rw [Bool.and_eq_true, beq_iff_eq]; exact ⟨hblap, hbact⟩⟩
    · intro h1
      rw [List.any_eq_true] at h1
      rcases h1 with ⟨b, hbm, hbq⟩
      rw [Bool.and_eq_true, beq_iff_eq] at hbq
      have hbid : ¬ b.id = i := by
        intro hc
        have := hUniq b hbm hc
        rw [this] at hbq
        exact hx (hbq.1.symm ▸ rfl)
      rw [List.any_eq_true]
      refine ⟨if b.id == i then returnedRow alloc r aid else b,
        List.mem_map_of_mem _ hbm, ?_⟩
      have hc : (if b.id == i then returnedRow alloc r aid else b) = b := by
        simp [hbid]
      rw [hc, Bool.and_eq_true, beq_iff_eq]
      exact hbq
  have hTgt :
      ((s.allocations.map (fun b => if b.id == i then returnedRow alloc r aid else b)).any
        (fun b => b.laptop_id == alloc.laptop_id && b.is_active)) = false := by
    cases htest :
        ((s.allocations.map (fun b => if b.id == i then returnedRow alloc r aid else b)).any
          (fun b => b.laptop_id == alloc.laptop_id && b.is_active)) with
    | false => rfl
    | true =>
        exfalso
        rcases hAfterActive alloc.laptop_id htest with ⟨b, hbm, hblap, hbact, hbid⟩
        have := hOnly b hbm hblap hbact
        simp [this] at hbid
  unfold statusLedgerAgreement at hAgr ⊢
  rw [List.all_eq_true] at hAgr ⊢
  intro l' hl'
  have hl2 : l' ∈ s.laptops.map
      (fun l => if l.id == laptop.id then { l with status_id := stV.id } else l) := hl'
  rcases List.mem_map.mp hl2 with ⟨l, hlm, rfl⟩
  rw [beq_iff_eq]
  have hstatEq : ∀ y, laptopStatusAllocated
      (setLaptopStatus (putAllocationRec s i (returnedRow alloc r aid))
        laptop.id stV.id) y = laptopStatusAllocated s y := fun y => rfl
  have hactEq : ∀ x, hasActiveAllocation
      (setLaptopStatus (putAllocationRec s i (returnedRow alloc r aid))
        laptop.id stV.id) x =
      ((s.allocations.map (fun b => if b.id == i then returnedRow alloc r aid else b)).any
        (fun b => b.laptop_id == x && b.is_active)) := fun x => rfl
  by_cases hb : l.id = laptop.id
  · have h1 : (if l.id == laptop.id then { l with status_id := stV.id } else l)
        = { l with status_id := stV.id } := by simp [hb]
    rw [h1]
    have hble : ({ l with status_id := stV.id } : LaptopDetail).id
        = alloc.laptop_id := hb.trans hlap
    have e1 : laptopStatusAllocated s
        ({ l with status_id := stV.id } : LaptopDetail) = false := by
      cases hA : findStatusByName s "Allocated" with
      | none => simp [laptopStatusAllocated, hA]
      | some stA =>
          rw [hA] at hDist
          have hne : stA.id ≠ stV.id := by simpa using hDist
          simp only [laptopStatusAllocated, hA]
          show (stV.id == stA.id) = false
          rw [beq_eq_false_iff_ne]
          exact fun hc => hne hc.symm
    have e2 : ((s.allocations.map
        (fun b => if b.id == i then returnedRow alloc r aid else b)).any
        (fun b => b.laptop_id == ({ l with status_id := stV.id } :
          LaptopDetail).id && b.is_active)) = false := by
      rw [show ({ l with status_id := stV.id } : LaptopDetail).id = alloc.laptop_id
            from hble]
      exact hTgt
    rw [hstatEq, hactEq, e1, e2]
  · have h1 : (if l.id == laptop.id then { l with status_id := stV.id } else l)
        = l := by simp [hb]
    rw [h1]
    have hne : l.id ≠ alloc.laptop_id := fun hc => hb (hc.trans hlap.symm)
    rw [hstatEq, hactEq, hPres l.id hne]
    have := hAgr l hlm
    rw [beq_iff_eq] at this
    exact this

/-- C1 (amended): the status/ledger equivalence is an invariant of the two
ledger operations but not of the whole system. (1) A successful
`repo_create_allocation` preserves it unconditionally. (2) A successful
`repo_return_laptop` preserves it provided the returned record's id is unique
in the ledger, every active record for that laptop is the returned one, and
the `"Allocated"` status row (if any) has a different id from the
`"Available"` row. It is *not* preserved by `repo_modify_laptop_status`, and
double-booked or re-returned ledgers can break it through `ReturnLaptop` —
see the counterexample. -/
theorem statusLedgerAgreement_after_create_and_return :
    (∀ (alloc : CreateAllocation) (s : Store) (aid : Nat)
        (laptop : LaptopDetail) (stA : LaptopStatus),
        findLaptop s alloc.laptop_id = some laptop →
        findStatusByName s "Allocated" = some stA →
        statusLedgerAgreement s = true →
        statusLedgerAgreement (repo_create_allocation alloc s aid).1 = true) ∧
    (∀ (i : Nat) (r : CreateReturn) (s : Store) (aid : Nat)
        (alloc : LaptopAllocation) (laptop : LaptopDetail) (stV : LaptopStatus)
        (uA uU : User),
        findAllocationRec s i = some alloc →
        findLaptop s alloc.laptop_id = some laptop →
        findStatusByName s "Available" = some stV →
        findUser s aid = some uA →
        findUser s alloc.user_id = some uU →
        (∀ b ∈ s.allocations, b.id = i → b = alloc) →
        (∀ b ∈ s.allocations, b.laptop_id = alloc.laptop_id →
            b.is_active = true → b.id = i) →
        Option.all (fun stA => stA.id != stV.id)
          (findStatusByName s "Allocated") = true →
        statusLedgerAgreement s = true →
        statusLedgerAgreement (repo_return_laptop i r s aid).1 = true) :=
  ⟨fun alloc s aid laptop stA hL hS hAgr =>
     createAllocation_preserves_agreement alloc s aid laptop stA hL hS hAgr,
   fun i r s aid alloc laptop stV uA uU hF hL hS hUA hUU hUniq hOnly hDist hAgr =>
     returnLaptop_preserves_agreement i r s aid alloc laptop stV uA uU
       hF hL hS hUA hUU hUniq hOnly hDist hAgr⟩

/-- Witness for C1 (amended): allocating the already-allocated laptop of
`sAlloc` keeps the agreement; returning allocation 1 of `sAlloc` keeps it
too. -/
theorem statusLedgerAgreement_after_create_and_return_witness :
    statusLedgerAgreement (repo_create_allocation demoAllocationInput sAlloc 1).1
      = true ∧
    statusLedgerAgreement (repo_return_laptop 1 demoReturnInput sAlloc 1).1
      = true :=
  ⟨statusLedgerAgreement_after_create_and_return.1 demoAllocationInput sAlloc 1
     laptopRowAllocated { id := 2, status_name := "Allocated" }
     (by decide) (by decide) (by decide),
   statusLedgerAgreement_after_create_and_return.2 1 demoReturnInput sAlloc 1
     row1 laptopRowAllocated { id := 1, status_name := "Available" }
     adminUser adminUser (by decide) (by decide) (by decide) (by decide)
     (by decide) (by decide) (by decide) (by decide) (by decide)⟩

end Invensys
